import Mathlib

/-!
Verification of the Supervisor internal network manager
(`src/supervisor/docker/network.py`, class `DockerNetwork`).

The Docker SDK calls made by the manager are modelled as an explicit event
trace: each operation of the class becomes a function from the outcomes the
provider gives its calls to the pair (list of provider calls issued, result
of the operation). Machine-level details that the code never inspects
(exact IP string rendering, logging) are dropped; everything the code
branches on is kept.
-/

namespace Supervisor

/-- Modelled from the spec: the canonical network name held by the missing
`supervisor/const.py` (`DOCKER_NETWORK`; the spec fixes it as the
well-known name, e.g. hassio). -/
def DOCKER_NETWORK : String := "hassio"

/-- Modelled from the spec: the default driver name held by the missing
`supervisor/const.py` (`DOCKER_NETWORK_DRIVER`); it is both the canonical
network driver and the name under which the default bridge is looked up. -/
def DOCKER_NETWORK_DRIVER : String := "bridge"

/-- An IPv4 network (subnet), keeping only what the code uses: its base
(network) address. Addresses are modelled as natural numbers. -/
structure IPv4Net where
  base : Nat
  deriving DecidableEq, Repr

/-- Python `IPv4Network` indexing as used by the accessors:
`mask[k]` is the network base address plus `k`. -/
def IPv4Net.index (n : IPv4Net) (k : Nat) : Nat := n.base + k

/-- Modelled from the spec: the address-plan constants of the missing
`supervisor/const.py` (`DOCKER_IPV4_NETWORK_MASK`, `DOCKER_IPV6_NETWORK_MASK`,
`DOCKER_IPV4_NETWORK_RANGE`). Their concrete values are not in `src/`, so
the model is parametric in them; `ipv4Mask` and `ipv4MaskStr` are the
structured and rendered forms of the same IPv4 subnet. -/
structure Consts where
  ipv4Mask : IPv4Net
  ipv4MaskStr : String
  ipv6MaskStr : String
  ipv4RangeStr : String
  deriving DecidableEq, Repr

/-- One `docker.types.IPAMPool` as built in `DOCKER_NETWORK_PARAMS`. -/
structure IPAMPool where
  subnet : String
  gateway : Option Nat
  iprange : Option String
  deriving DecidableEq, Repr

/-- The `docker.types.IPAMConfig` of `DOCKER_NETWORK_PARAMS`. -/
structure IPAMConfig where
  poolConfigs : List IPAMPool
  deriving DecidableEq, Repr

/-- Keyword arguments passed to `docker.networks.create`, as assembled in
the module-level `DOCKER_NETWORK_PARAMS` dict. -/
structure NetworkParams where
  name : String
  driver : String
  ipam : IPAMConfig
  enableIPv6 : Bool
  options : List (String × String)
  deriving DecidableEq, Repr

/-- Source `DOCKER_NETWORK_PARAMS`: name, driver, an IPv6 pool, an IPv4 pool
with gateway `mask[1]` and the allocatable range, `enable_ipv6 = True`, and
the bridge-name option. -/
def DOCKER_NETWORK_PARAMS (c : Consts) : NetworkParams :=
  { name := DOCKER_NETWORK
    driver := DOCKER_NETWORK_DRIVER
    ipam := ⟨[⟨c.ipv6MaskStr, none, none⟩,
              ⟨c.ipv4MaskStr, some (c.ipv4Mask.index 1), some c.ipv4RangeStr⟩]⟩
    enableIPv6 := true
    options := [("com.docker.network.bridge.name", DOCKER_NETWORK)] }

/-- One value of the `Containers` map in a network attrs snapshot; the code
reads `val.get("Name")`, which may be absent. -/
structure ContainerMeta where
  name : Option String
  deriving DecidableEq, Repr

/-- The slice of a Docker network attrs snapshot that the code reads:
`EnableIPv6` and `Containers` keyed by container id; either key may be
absent, the defaults are supplied by `attrs.get` at each use site. -/
structure NetworkAttrs where
  enableIPv6 : Option Bool
  containers : Option (List (String × ContainerMeta))
  deriving DecidableEq, Repr

/-- The network handle held by the manager: either the existing network
returned by `get`, or a freshly created one. -/
inductive NetworkHandle
  | existing (attrs : NetworkAttrs)
  | created (params : NetworkParams)
  deriving DecidableEq, Repr

/-- Attrs snapshot of a handle: an existing network keeps its snapshot; a
freshly created network reports the creation flag and no members. -/
def NetworkHandle.attrs : NetworkHandle → NetworkAttrs
  | .existing a => a
  | .created p => { enableIPv6 := some p.enableIPv6, containers := some [] }

/-- Exceptions a provider call can raise. In the Python hierarchy,
`NotFound` is a subclass of `APIError`, which is a subclass of
`DockerException`; `requests.RequestException` is a separate transport
error. Each carries its message text. -/
inductive PErr
  | notFound (msg : String)
  | apiError (msg : String)
  | dockerException (msg : String)
  | requestException (msg : String)
  deriving DecidableEq, Repr

/-- Membership in the `docker.errors.NotFound` class. -/
def PErr.isNotFound : PErr → Bool
  | .notFound _ => true
  | _ => false

/-- Membership in the `docker.errors.APIError` class (includes NotFound). -/
def PErr.isAPIError : PErr → Bool
  | .notFound _ => true
  | .apiError _ => true
  | _ => false

/-- Membership in the `docker.errors.DockerException` class. -/
def PErr.isDockerException : PErr → Bool
  | .requestException _ => false
  | _ => true

/-- Membership in the `requests.RequestException` class. -/
def PErr.isRequestException : PErr → Bool
  | .requestException _ => true
  | _ => false

/-- The message text of the exception. -/
def PErr.detail : PErr → String
  | .notFound m => m
  | .apiError m => m
  | .dockerException m => m
  | .requestException m => m

/-- Messages of the `DockerError` values the class raises, keeping the
embedded original error text of the f-strings. -/
inductive ErrMsg
  | linkFailed (detail : String)
  | defaultDisconnectFailed (detail : String)
  deriving DecidableEq, Repr

/-- How an operation ends when it does not return normally: a raised
`DockerError` (optional message, optional `from err` cause), or an
exception no handler catches, escaping unwrapped. -/
inductive SupErr
  | dockerError (msg : Option ErrMsg) (cause : Option PErr)
  | uncaught (e : PErr)
  deriving DecidableEq, Repr

/-- A provider call issued by the manager, recorded in order. -/
inductive Event
  | getNetwork (name : String)
  | removeNetwork
  | createNetwork (params : NetworkParams)
  | reloadNetwork
  | disconnect (network : String) (target : Option String) (force : Bool)
  | connect (network : String) (container : Option String)
      (aliases : Option (List String)) (ipv4 : Option Nat)
  deriving DecidableEq, Repr

/-- True exactly on `removeNetwork` events. -/
def isRemoveEvent : Event → Bool
  | .removeNetwork => true
  | _ => false

/-- True exactly on `createNetwork` events. -/
def isCreateEvent : Event → Bool
  | .createNetwork _ => true
  | _ => false

/-- True exactly on `connect` events. -/
def isConnectEvent : Event → Bool
  | .connect _ _ _ _ => true
  | _ => false

/-- True exactly on `disconnect` events. -/
def isDisconnectEvent : Event → Bool
  | .disconnect _ _ _ => true
  | _ => false

/-- Outcome of the initial `docker.networks.get(DOCKER_NETWORK)` call:
either a network with its attrs snapshot, or a raised exception. -/
inductive GetResult
  | found (attrs : NetworkAttrs)
  | failed (e : PErr)
  deriving DecidableEq, Repr

/-- Source `DockerNetwork._get_network`: try `get`; if the snapshot has
`attrs.get("EnableIPv6", False)` truthy, return the network; otherwise
remove it and fall through; `NotFound` from `get` also falls through; any
other exception propagates. The fall-through creates a network with
`DOCKER_NETWORK_PARAMS`. -/
def get_network (c : Consts) (g : GetResult) : List Event × Except PErr NetworkHandle :=
  match g with
  | .failed e =>
      if e.isNotFound then
        ([.getNetwork DOCKER_NETWORK, .createNetwork (DOCKER_NETWORK_PARAMS c)],
         .ok (.created (DOCKER_NETWORK_PARAMS c)))
      else
        ([.getNetwork DOCKER_NETWORK], .error e)
  | .found attrs =>
      if attrs.enableIPv6.getD false then
        ([.getNetwork DOCKER_NETWORK], .ok (.existing attrs))
      else
        ([.getNetwork DOCKER_NETWORK, .removeNetwork,
          .createNetwork (DOCKER_NETWORK_PARAMS c)],
         .ok (.created (DOCKER_NETWORK_PARAMS c)))

/-- Manager instance state: the sole owned network handle (`self._network`). -/
structure DockerNetworkState where
  network : NetworkHandle
  deriving DecidableEq, Repr

/-- Source property `name`. -/
def DockerNetworkState.name (_ : DockerNetworkState) : String := DOCKER_NETWORK

/-- Source property `containers`:
`list(self.network.attrs.get("Containers", {}).keys())`. -/
def DockerNetworkState.containers (s : DockerNetworkState) : List String :=
  (s.network.attrs.containers.getD []).map Prod.fst

/-- Source property `gateway`: `DOCKER_IPV4_NETWORK_MASK[1]`. -/
def DockerNetworkState.gateway (c : Consts) (_ : DockerNetworkState) : Nat :=
  c.ipv4Mask.index 1

/-- Source property `supervisor`: `DOCKER_IPV4_NETWORK_MASK[2]`. -/
def DockerNetworkState.supervisor (c : Consts) (_ : DockerNetworkState) : Nat :=
  c.ipv4Mask.index 2

/-- Source property `dns`: `DOCKER_IPV4_NETWORK_MASK[3]`. -/
def DockerNetworkState.dns (c : Consts) (_ : DockerNetworkState) : Nat :=
  c.ipv4Mask.index 3

/-- Source property `audio`: `DOCKER_IPV4_NETWORK_MASK[4]`. -/
def DockerNetworkState.audio (c : Consts) (_ : DockerNetworkState) : Nat :=
  c.ipv4Mask.index 4

/-- Source property `cli`: `DOCKER_IPV4_NETWORK_MASK[5]`. -/
def DockerNetworkState.cli (c : Consts) (_ : DockerNetworkState) : Nat :=
  c.ipv4Mask.index 5

/-- Source property `observer`: `DOCKER_IPV4_NETWORK_MASK[6]`. -/
def DockerNetworkState.observer (c : Consts) (_ : DockerNetworkState) : Nat :=
  c.ipv4Mask.index 6

/-- Python truthiness of `container.name` (`None` and the empty string are
falsy). -/
def pyTruthy : Option String → Bool
  | none => false
  | some s => s != ""

/-- The generator scanned by the stale pre-check:
`val.get("Name") for val in self.network.attrs.get("Containers", {}).values()`. -/
def recordedNames (attrs : NetworkAttrs) : List (Option String) :=
  (attrs.containers.getD []).map (fun v => v.2.name)

/-- The stale-membership pre-check of `attach_container`:
`container.name and container.name in (val.get("Name") for val in ...)`;
Python `in` compares with `==`, so a `None` name never matches a string. -/
def staleCheck (cname : Option String) (attrs : NetworkAttrs) : Bool :=
  pyTruthy cname && (recordedNames attrs).contains cname

/-- Source `DockerNetwork.stale_cleanup`: force-disconnect the name from the
canonical network; `NotFound` is swallowed; any other `DockerException` or
`RequestException` is re-raised as a bare `DockerError()` whose cause is the
original. `disc` is the outcome the provider gives the disconnect call. -/
def stale_cleanup (cname : String) (disc : Option PErr) :
    List Event × Except SupErr Unit :=
  ([.disconnect DOCKER_NETWORK (some cname) true],
   match disc with
   | none => .ok ()
   | some e =>
     if e.isNotFound then .ok ()
     else if e.isDockerException || e.isRequestException then
       .error (.dockerError none (some e))
     else .error (.uncaught e))

/-- The stale-check-and-cleanup segment of `attach_container`: when the
pre-check fires (which requires a truthy name), run `stale_cleanup` on the
name; otherwise nothing happens. -/
def cleanupPhase (cname : Option String) (attrs : NetworkAttrs)
    (disc : Option PErr) : List Event × Except SupErr Unit :=
  match cname with
  | some s => if staleCheck (some s) attrs then stale_cleanup s disc else ([], .ok ())
  | none => ([], .ok ())

/-- Outcome of the final `self.network.connect(...)` call of
`attach_container`: success, or `APIError` wrapped into a `DockerError`
carrying the original error text as in the source f-string, or any other
exception escaping uncaught. -/
def connectOutcome (conn : Option PErr) : Except SupErr Unit :=
  match conn with
  | none => .ok ()
  | some e =>
    if e.isAPIError then
      .error (.dockerError (some (.linkFailed e.detail)) (some e))
    else .error (.uncaught e)

/-- Source `DockerNetwork.attach_container`: best-effort `reload` (every
`DockerException`/`RequestException` suppressed, so the call always
proceeds), then the stale pre-check and cleanup, then `connect` with the
aliases and the optional IPv4 address. `attrs` is the membership snapshot
after the reload; `disc` and `conn` are the provider outcomes of the
disconnect and connect calls. -/
def attach_container (cname : Option String) (aliases : Option (List String))
    (ipv4 : Option Nat) (attrs : NetworkAttrs) (disc conn : Option PErr) :
    List Event × Except SupErr Unit :=
  match cleanupPhase cname attrs disc with
  | (tr, .ok _) =>
      ([Event.reloadNetwork] ++ tr ++ [Event.connect DOCKER_NETWORK cname aliases ipv4],
       connectOutcome conn)
  | (tr, .error err) => ([Event.reloadNetwork] ++ tr, .error err)

/-- Source `DockerNetwork.detach_default_bridge`: get the default network by
the driver name, then disconnect the container from it; `NotFound` from
either call returns normally; `APIError` becomes a `DockerError` with the
original error text; anything else escapes uncaught. `getRes` and `disc`
are the provider outcomes of the two calls. -/
def detach_default_bridge (cname : Option String) (getRes disc : Option PErr) :
    List Event × Except SupErr Unit :=
  match getRes with
  | some e =>
      ([.getNetwork DOCKER_NETWORK_DRIVER],
       if e.isNotFound then .ok ()
       else if e.isAPIError then
         .error (.dockerError (some (.defaultDisconnectFailed e.detail)) (some e))
       else .error (.uncaught e))
  | none =>
      ([.getNetwork DOCKER_NETWORK_DRIVER,
        .disconnect DOCKER_NETWORK_DRIVER cname false],
       match disc with
       | none => .ok ()
       | some e =>
         if e.isNotFound then .ok ()
         else if e.isAPIError then
           .error (.dockerError (some (.defaultDisconnectFailed e.detail)) (some e))
         else .error (.uncaught e))

/-- A concrete address plan used by the closed witness statements; the
theorems themselves are parametric in the plan. -/
def planA : Consts :=
  ⟨⟨2886745088⟩, "172.30.32.0/23", "fd00:a0::/64", "172.30.33.0/24"⟩

/-- A snapshot of an existing single-stack network (flag present, false). -/
def attrsSingleStack : NetworkAttrs := ⟨some false, some []⟩

/-- A snapshot of an existing dual-stack network (flag present, true). -/
def attrsDualStack : NetworkAttrs := ⟨some true, some []⟩

/-- A snapshot with no `EnableIPv6` key at all. -/
def attrsNoFlag : NetworkAttrs := ⟨none, some []⟩

/-- C1: for every existing canonical network whose dual-stack attribute
disagrees with the desired flag (the `enable_ipv6` of the fixed creation
params), resolve performs exactly one remove followed by exactly one create
with the desired flag and the otherwise-identical spec, and returns the
newly created handle. -/
theorem C1_migration_remove_then_create (c : Consts) (attrs : NetworkAttrs)
    (h : attrs.enableIPv6.getD false ≠ (DOCKER_NETWORK_PARAMS c).enableIPv6) :
    get_network c (.found attrs) =
      ([.getNetwork DOCKER_NETWORK, .removeNetwork,
        .createNetwork (DOCKER_NETWORK_PARAMS c)],
       .ok (.created (DOCKER_NETWORK_PARAMS c))) ∧
    (DOCKER_NETWORK_PARAMS c).enableIPv6 = true ∧
    (get_network c (.found attrs)).1.countP isRemoveEvent = 1 ∧
    (get_network c (.found attrs)).1.countP isCreateEvent = 1 := by
  have hb : attrs.enableIPv6.getD false = false := by
    simp only [DOCKER_NETWORK_PARAMS] at h
    cases hx : attrs.enableIPv6.getD false
    · rfl
    · exact absurd hx h
  refine ⟨by simp [get_network, hb], rfl, ?_, ?_⟩ <;>
    simp [get_network, hb, List.countP_cons, isRemoveEvent, isCreateEvent]

/-- C1 witness: a concrete plan and a concrete single-stack snapshot. -/
theorem C1_witness :
    attrsSingleStack.enableIPv6.getD false ≠ (DOCKER_NETWORK_PARAMS planA).enableIPv6 ∧
    get_network planA (.found attrsSingleStack) =
      ([.getNetwork DOCKER_NETWORK, .removeNetwork,
        .createNetwork (DOCKER_NETWORK_PARAMS planA)],
       .ok (.created (DOCKER_NETWORK_PARAMS planA))) :=
  ⟨by decide, (C1_migration_remove_then_create planA attrsSingleStack (by decide)).1⟩

/-- C2: for every existing canonical network whose dual-stack attribute
equals the desired flag, resolve reuses that network as-is: the only
provider call is the initial get, and the returned handle is the existing
network with its snapshot. -/
theorem C2_reuse_no_mutation (c : Consts) (attrs : NetworkAttrs)
    (h : attrs.enableIPv6.getD false = (DOCKER_NETWORK_PARAMS c).enableIPv6) :
    get_network c (.found attrs) =
      ([.getNetwork DOCKER_NETWORK], .ok (.existing attrs)) ∧
    ∀ e ∈ (get_network c (.found attrs)).1, e = .getNetwork DOCKER_NETWORK := by
  simp only [DOCKER_NETWORK_PARAMS] at h
  refine ⟨by simp [get_network, h], ?_⟩
  simp [get_network, h]

/-- C2 witness: a concrete dual-stack snapshot is reused with a single get. -/
theorem C2_witness :
    attrsDualStack.enableIPv6.getD false = (DOCKER_NETWORK_PARAMS planA).enableIPv6 ∧
    get_network planA (.found attrsDualStack) =
      ([.getNetwork DOCKER_NETWORK], .ok (.existing attrsDualStack)) :=
  ⟨by decide, (C2_reuse_no_mutation planA attrsDualStack (by decide)).1⟩

/-- C3: when the canonical network is absent (the get fails with NotFound),
resolve performs exactly one create with the network spec and zero removes,
and returns the new handle. -/
theorem C3_absent_create_only (c : Consts) (e : PErr) (h : e.isNotFound = true) :
    get_network c (.failed e) =
      ([.getNetwork DOCKER_NETWORK, .createNetwork (DOCKER_NETWORK_PARAMS c)],
       .ok (.created (DOCKER_NETWORK_PARAMS c))) ∧
    (get_network c (.failed e)).1.countP isCreateEvent = 1 ∧
    (get_network c (.failed e)).1.countP isRemoveEvent = 0 := by
  refine ⟨by simp [get_network, h], ?_, ?_⟩ <;>
    simp [get_network, h, List.countP_cons, isRemoveEvent, isCreateEvent]

/-- C3 witness: a concrete NotFound from get leads to the single create. -/
theorem C3_witness :
    (PErr.notFound "no such network").isNotFound = true ∧
    get_network planA (.failed (.notFound "no such network")) =
      ([.getNetwork DOCKER_NETWORK, .createNetwork (DOCKER_NETWORK_PARAMS planA)],
       .ok (.created (DOCKER_NETWORK_PARAMS planA))) :=
  ⟨rfl, (C3_absent_create_only planA (.notFound "no such network") rfl).1⟩

/-- C4: the six reserved-address accessors are pure functions of the fixed
IPv4 subnet: gateway, supervisor, dns, audio, cli and observer sit at
offsets 1 through 6 from the subnet base, and their values are identical at
any two manager states, in particular before and after a destroy-and-create
migration or across repeated resolve calls. -/
theorem C4_reserved_addresses (c : Consts) (s t : DockerNetworkState) :
    (s.gateway c = c.ipv4Mask.base + 1 ∧ s.supervisor c = c.ipv4Mask.base + 2 ∧
     s.dns c = c.ipv4Mask.base + 3 ∧ s.audio c = c.ipv4Mask.base + 4 ∧
     s.cli c = c.ipv4Mask.base + 5 ∧ s.observer c = c.ipv4Mask.base + 6) ∧
    (s.gateway c = t.gateway c ∧ s.supervisor c = t.supervisor c ∧
     s.dns c = t.dns c ∧ s.audio c = t.audio c ∧
     s.cli c = t.cli c ∧ s.observer c = t.observer c) :=
  ⟨⟨rfl, rfl, rfl, rfl, rfl, rfl⟩, rfl, rfl, rfl, rfl, rfl, rfl⟩

/-- C10: an existing canonical network whose snapshot lacks the
`EnableIPv6` key entirely is treated as dual-stack disabled: resolve takes
the destructive migration path, exactly as for an explicit false flag. -/
theorem C10_missing_flag_migrates (c : Consts) (attrs : NetworkAttrs)
    (h : attrs.enableIPv6 = none) :
    get_network c (.found attrs) =
      ([.getNetwork DOCKER_NETWORK, .removeNetwork,
        .createNetwork (DOCKER_NETWORK_PARAMS c)],
       .ok (.created (DOCKER_NETWORK_PARAMS c))) ∧
    get_network c (.found attrs) =
      get_network c (.found ⟨some false, attrs.containers⟩) := by
  have hb : attrs.enableIPv6.getD false = false := by rw [h]; rfl
  exact ⟨by simp [get_network, hb], by simp [get_network, hb]⟩

/-- The cleanup segment of attach never issues a connect call. -/
theorem cleanupPhase_no_connect (cname : Option String) (attrs : NetworkAttrs)
    (disc : Option PErr) :
    ((cleanupPhase cname attrs disc).1).countP isConnectEvent = 0 := by
  cases cname with
  | none => rfl
  | some s =>
    by_cases h : staleCheck (some s) attrs
    · simp [cleanupPhase, h, stale_cleanup, List.countP_cons, isConnectEvent]
    · simp [cleanupPhase, h]

/-- A snapshot with a single member whose recorded name is empty. -/
def attrsStaleEmptyName : NetworkAttrs := ⟨none, some [("cid1", ⟨some ""⟩)]⟩

/-- C5 counterexample: a target container whose name is the empty string
while the snapshot records an entry with that same empty name: the
pre-check additionally requires a truthy name, so no cleanup disconnect is
issued and connect is attempted directly. -/
theorem C5_counterexample :
    (recordedNames attrsStaleEmptyName).contains (some "") = true ∧
    attach_container (some "") none none attrsStaleEmptyName none none =
      ([.reloadNetwork, .connect DOCKER_NETWORK (some "") none none], .ok ()) :=
  ⟨rfl, rfl⟩

/-- C5 (amended): when the snapshot records the target container name and
that name is non-empty, attach invokes the forced cleanup for the name and
it completes strictly before connect: with a successful or not-found
disconnect the trace is reload, forced disconnect, connect; with any other
disconnect error the call stops after the disconnect, connect is never
attempted, and the cleanup error surfaces. -/
theorem C5_cleanup_before_connect (s : String) (aliases : Option (List String))
    (ipv4 : Option Nat) (attrs : NetworkAttrs) (disc conn : Option PErr)
    (hne : s ≠ "") (hmem : (recordedNames attrs).contains (some s) = true) :
    ((disc = none ∨ (∃ m, disc = some (.notFound m))) →
      (attach_container (some s) aliases ipv4 attrs disc conn).1 =
        [.reloadNetwork, .disconnect DOCKER_NETWORK (some s) true,
         .connect DOCKER_NETWORK (some s) aliases ipv4]) ∧
    (∀ e, disc = some e → e.isNotFound = false →
      (attach_container (some s) aliases ipv4 attrs disc conn).1 =
        [.reloadNetwork, .disconnect DOCKER_NETWORK (some s) true] ∧
      (attach_container (some s) aliases ipv4 attrs disc conn).2 =
        .error (.dockerError none (some e))) := by
  have hsc : staleCheck (some s) attrs = true := by
    unfold staleCheck
    rw [hmem]
    simp [pyTruthy, bne_iff_ne, hne]
  constructor
  · rintro (rfl | ⟨m, rfl⟩) <;>
      simp [attach_container, cleanupPhase, hsc, stale_cleanup, PErr.isNotFound]
  · rintro e rfl hnf
    cases e <;>
      simp_all [attach_container, cleanupPhase, hsc, stale_cleanup,
        PErr.isNotFound, PErr.isDockerException, PErr.isRequestException]

/-- A snapshot with one member recorded under a real container name. -/
def attrsStaleNamed : NetworkAttrs := ⟨some true, some [("cid2", ⟨some "hassio_cli"⟩)]⟩

/-- C5 witness: a concrete stale entry with the target name; the disconnect
answers not-found and connect is still attempted after it. -/
theorem C5_witness :
    ("hassio_cli" ≠ "" ∧
     (recordedNames attrsStaleNamed).contains (some "hassio_cli") = true) ∧
    (attach_container (some "hassio_cli") none none attrsStaleNamed
        (some (.notFound "already gone")) none).1 =
      [.reloadNetwork, .disconnect DOCKER_NETWORK (some "hassio_cli") true,
       .connect DOCKER_NETWORK (some "hassio_cli") none none] :=
  ⟨⟨by decide, rfl⟩,
   (C5_cleanup_before_connect "hassio_cli" none none attrsStaleNamed
       (some (.notFound "already gone")) none (by decide) rfl).1
     (Or.inr ⟨"already gone", rfl⟩)⟩

/-- C6: stale-cleanup issues a single forced disconnect of the name from
the canonical network; success when the provider call succeeds or reports
the name as not found; every other docker or transport error from the
disconnect surfaces as a bare generic `DockerError` with the original
error as cause. -/
theorem C6_stale_cleanup_contract (cname : String) (disc : Option PErr) :
    (stale_cleanup cname disc).1 = [.disconnect DOCKER_NETWORK (some cname) true] ∧
    (disc = none → (stale_cleanup cname disc).2 = .ok ()) ∧
    (∀ m, disc = some (.notFound m) → (stale_cleanup cname disc).2 = .ok ()) ∧
    (∀ e, disc = some e → e.isNotFound = false →
      (e.isDockerException || e.isRequestException) = true ∧
      (stale_cleanup cname disc).2 = .error (.dockerError none (some e))) := by
  refine ⟨rfl, ?_, ?_, ?_⟩
  · rintro rfl; rfl
  · rintro m rfl; rfl
  · rintro e rfl hnf
    cases e <;>
      simp_all [stale_cleanup, PErr.isNotFound, PErr.isDockerException,
        PErr.isRequestException]

/-- C6 witness: a not-found disconnect is success, a transport error from
the disconnect becomes the bare `DockerError` with the original cause. -/
theorem C6_witness :
    ((PErr.requestException "timeout").isNotFound = false ∧
     (stale_cleanup "addon_x" (some (.requestException "timeout"))).2 =
       .error (.dockerError none (some (.requestException "timeout")))) ∧
    (stale_cleanup "addon_y" (some (.notFound "gone"))).2 = .ok () :=
  ⟨⟨rfl, ((C6_stale_cleanup_contract "addon_x"
       (some (.requestException "timeout"))).2.2.2 _ rfl rfl).2⟩,
   (C6_stale_cleanup_contract "addon_y" (some (.notFound "gone"))).2.2.1 "gone" rfl⟩

/-- C7: whenever connect is actually attempted (the trace holds exactly one
connect call) and the provider answers it with an APIError, attach fails
with a `DockerError` carrying the original error text and cause; and no
internal retry exists: no attach trace ever holds more than one connect. -/
theorem C7_connect_error_wrapped (cname : Option String)
    (aliases : Option (List String)) (ipv4 : Option Nat) (attrs : NetworkAttrs)
    (disc : Option PErr) (e : PErr) (he : e.isAPIError = true)
    (hreach : (attach_container cname aliases ipv4 attrs disc (some e)).1.countP
        isConnectEvent = 1) :
    (attach_container cname aliases ipv4 attrs disc (some e)).2 =
      .error (.dockerError (some (.linkFailed e.detail)) (some e)) ∧
    ∀ conn : Option PErr,
      (attach_container cname aliases ipv4 attrs disc conn).1.countP
          isConnectEvent ≤ 1 := by
  constructor
  · rcases hc : cleanupPhase cname attrs disc with ⟨tr, res⟩
    have h0 : tr.countP isConnectEvent = 0 := by
      simpa [hc] using cleanupPhase_no_connect cname attrs disc
    cases res with
    | ok u => simp [attach_container, hc, connectOutcome, he]
    | error err =>
      exfalso
      simp [attach_container, hc, List.countP_append, List.countP_cons,
        isConnectEvent, h0] at hreach
  · intro conn
    rcases hc : cleanupPhase cname attrs disc with ⟨tr, res⟩
    have h0 : tr.countP isConnectEvent = 0 := by
      simpa [hc] using cleanupPhase_no_connect cname attrs disc
    cases res with
    | ok u =>
      simp [attach_container, hc, List.countP_append, List.countP_cons,
        isConnectEvent, h0]
    | error err =>
      simp [attach_container, hc, List.countP_append, List.countP_cons,
        isConnectEvent, h0]

/-- C7 witness: a concrete APIError from connect on a clean snapshot. -/
theorem C7_witness :
    ((PErr.apiError "403 forbidden").isAPIError = true ∧
     (attach_container (some "hassio_audio") none none attrsDualStack none
        (some (.apiError "403 forbidden"))).1.countP isConnectEvent = 1) ∧
    (attach_container (some "hassio_audio") none none attrsDualStack none
        (some (.apiError "403 forbidden"))).2 =
      .error (.dockerError (some (.linkFailed "403 forbidden"))
        (some (.apiError "403 forbidden"))) :=
  ⟨⟨rfl, by decide⟩,
   (C7_connect_error_wrapped (some "hassio_audio") none none attrsDualStack
      none (.apiError "403 forbidden") rfl (by decide)).1⟩

/-- C8: detach from the default bridge looks the default network up by the
default driver name first; not-found from the lookup or from the
disconnect returns success; an APIError other than not-found from either
call fails with a `DockerError` carrying the original error text. -/
theorem C8_detach_default_bridge_contract (cname : Option String)
    (getRes disc : Option PErr) :
    (detach_default_bridge cname getRes disc).1.head? =
      some (.getNetwork DOCKER_NETWORK_DRIVER) ∧
    (∀ m, getRes = some (.notFound m) →
      (detach_default_bridge cname getRes disc).2 = .ok ()) ∧
    (getRes = none → disc = none →
      (detach_default_bridge cname getRes disc).2 = .ok ()) ∧
    (∀ m, getRes = none → disc = some (.notFound m) →
      (detach_default_bridge cname getRes disc).2 = .ok ()) ∧
    (∀ e, getRes = some e → e.isAPIError = true → e.isNotFound = false →
      (detach_default_bridge cname getRes disc).2 =
        .error (.dockerError (some (.defaultDisconnectFailed e.detail)) (some e))) ∧
    (∀ e, getRes = none → disc = some e → e.isAPIError = true →
      e.isNotFound = false →
      (detach_default_bridge cname getRes disc).2 =
        .error (.dockerError (some (.defaultDisconnectFailed e.detail)) (some e))) := by
  refine ⟨?_, ?_, ?_, ?_, ?_, ?_⟩
  · cases getRes <;> rfl
  · rintro m rfl; rfl
  · rintro rfl rfl; rfl
  · rintro m rfl rfl; rfl
  · rintro e rfl hapi hnf
    cases e <;> simp_all [detach_default_bridge, PErr.isAPIError, PErr.isNotFound]
  · rintro e rfl rfl hapi hnf
    cases e <;> simp_all [detach_default_bridge, PErr.isAPIError, PErr.isNotFound]

/-- C8 witness: a missing default network is success; an APIError from the
disconnect becomes the detach `DockerError` with the original text. -/
theorem C8_witness :
    (detach_default_bridge (some "hassio_dns") (some (.notFound "no default")) none).2 =
      .ok () ∧
    (detach_default_bridge (some "hassio_dns") none
        (some (.apiError "500 server error"))).2 =
      .error (.dockerError (some (.defaultDisconnectFailed "500 server error"))
        (some (.apiError "500 server error"))) :=
  ⟨(C8_detach_default_bridge_contract (some "hassio_dns")
      (some (.notFound "no default")) none).2.1 "no default" rfl,
   (C8_detach_default_bridge_contract (some "hassio_dns") none
      (some (.apiError "500 server error"))).2.2.2.2.2 _ rfl rfl rfl rfl⟩

/-- A snapshot with one member of id 8a1b2c recorded under name hassio_dns. -/
def attrsDnsMember : NetworkAttrs := ⟨some true, some [("8a1b2c", ⟨some "hassio_dns"⟩)]⟩

/-- C9 counterexample: the accessor returns the keys of the Containers map,
which are container ids, not the recorded member names: on a snapshot with
one member of id 8a1b2c recorded as hassio_dns it returns the id, not the
name. -/
theorem C9_counterexample :
    DockerNetworkState.containers ⟨.existing attrsDnsMember⟩ = ["8a1b2c"] ∧
    recordedNames attrsDnsMember = [some "hassio_dns"] ∧
    DockerNetworkState.containers ⟨.existing attrsDnsMember⟩ ≠ ["hassio_dns"] :=
  ⟨rfl, rfl, by decide⟩

/-- C9 (amended): the member-containers accessor returns the keys (the
container ids) of the Containers map of the latest attrs snapshot of the
held handle, one per membership entry, with no provider call; a freshly
created handle reports no members. -/
theorem C9_containers_are_snapshot_keys (s : DockerNetworkState) :
    s.containers = (s.network.attrs.containers.getD []).map Prod.fst ∧
    s.containers.length = (s.network.attrs.containers.getD []).length ∧
    ∀ p : NetworkParams, DockerNetworkState.containers ⟨.created p⟩ = [] :=
  ⟨rfl, by simp [DockerNetworkState.containers], fun p => rfl⟩

/-- C10 witness: a concrete snapshot with no flag key migrates. -/
theorem C10_witness :
    attrsNoFlag.enableIPv6 = none ∧
    get_network planA (.found attrsNoFlag) =
      ([.getNetwork DOCKER_NETWORK, .removeNetwork,
        .createNetwork (DOCKER_NETWORK_PARAMS planA)],
       .ok (.created (DOCKER_NETWORK_PARAMS planA))) :=
  ⟨rfl, (C10_missing_flag_migrates planA attrsNoFlag rfl).1⟩

end Supervisor
